import Mathlib

/-
Verification of the luigi pipeline in `pipe.py` (dataset download, archive
extraction, section parsing, Probes-table trimming, original-data cleanup).

The embedding models each task's `run`/`output`/`requires` logic as pure
Lean functions.  Filesystem effects are made explicit: a run is a function
from an input state (which files/directories exist, which operations the
environment makes fail) to an outcome recording what was written, deleted,
and whether the run raised.  Text files are modelled as lists of lines
without their trailing newline characters; paths are plain strings joined
with a slash.
-/

set_option autoImplicit false

namespace Pipe

/-! ## String helpers

Python string operations used by `pipe.py`, re-implemented over character
lists so that every definition computes by structural recursion. -/

/-- Models Python `s.startswith(pat)`. -/
def strStartsWith (s pat : String) : Bool :=
  List.isPrefixOf pat.toList s.toList

/-- Models Python `s.endswith(pat)`. -/
def hasSuffix (s pat : String) : Bool :=
  List.isSuffixOf pat.toList s.toList

/-- Characters stripped by `line.strip('[]\n')` in `process_file`.  The
newline is absent here because lines in this model carry no trailing
newline. -/
def isBracket (c : Char) : Bool :=
  c == '[' || c == ']'

/-- Models Python `line.strip('[]\n')` on a newline-free line: remove the
bracket characters from both ends. -/
def stripBrackets (s : String) : String :=
  String.mk (((s.toList.dropWhile isBracket).reverse.dropWhile isBracket).reverse)

/-- Split a character list at every occurrence of `sep` (Python
`str.split(sep)` semantics: the empty list yields one empty field). -/
def splitOnChar (sep : Char) : List Char → List (List Char)
  | [] => [[]]
  | c :: rest =>
    let r := splitOnChar sep rest
    if c == sep then [] :: r
    else
      match r with
      | [] => [[c]]
      | w :: ws => (c :: w) :: ws

/-- Split one line into its tab-separated fields (the `sep='\t'` passed to
`pd.read_csv` in `process_file`). -/
def splitTabs (line : String) : List String :=
  (splitOnChar '\t' line.toList).map String.mk

/-- Models `os.path.join(a, b)` for relative paths. -/
def joinPath (a b : String) : String :=
  a ++ "/" ++ b

/-! ## Tables and the CSV reader -/

/-- The header mode `pd.read_csv` is invoked with: `header=None` or
`header='infer'`. -/
inductive HeaderMode where
  | noHeader
  | infer

/-- A parsed tabular dataset: an optional header row and the data rows,
each a list of tab-separated fields.  Models the `pandas.DataFrame`
produced by `pd.read_csv(..., sep='\t', header=...)` at the granularity
the claims need. -/
structure Table where
  header : Option (List String)
  rows : List (List String)

/-- A line `pandas` does not skip: `read_csv` runs with the default
`skip_blank_lines=True`, so empty lines are discarded before parsing. -/
def isDataLine (l : String) : Bool :=
  !(l == "")

/-- Models `pd.read_csv(fio, sep='\t', header=mode)` on a buffer of lines.
When the buffer holds no non-blank line, pandas raises
`EmptyDataError("No columns to parse from file")`; otherwise with
`header='infer'` the first non-blank line becomes the header and with
`header=None` every line is a data row. -/
def readCsv (mode : HeaderMode) (buf : List String) : Except String Table :=
  match buf.filter isDataLine with
  | [] => .error "EmptyDataError: No columns to parse from file"
  | first :: rest =>
    match mode with
    | HeaderMode.infer => .ok (Table.mk (some (splitTabs first)) (rest.map splitTabs))
    | HeaderMode.noHeader => .ok (Table.mk none ((first :: rest).map splitTabs))

/-! ## SectionParser (`ExtractAndProcessFiles.process_file`) -/

/-- Python dict assignment `dfs[k] = t`: replace the value at `k` if the
key is present (keeping its position, as an insertion-ordered dict does),
otherwise append the binding. -/
def dictInsert (k : String) (t : Table) : List (String × Table) → List (String × Table)
  | [] => [(k, t)]
  | (k', t') :: rest => if k' = k then (k, t) :: rest else (k', t') :: dictInsert k t rest

/-- Mid-file finalization of the buffer for key `k` in `process_file`:
`header = None if write_key == 'Heading' else 'infer'` then `pd.read_csv`. -/
def finalizeKey (k : String) (buf : List String) : Except String Table :=
  readCsv (if k = "Heading" then HeaderMode.noHeader else HeaderMode.infer) buf

/-- End-of-input finalization in `process_file`: after the loop, when
`write_key` is truthy, `dfs[write_key] = pd.read_csv(fio, sep='\t')` — the
header is always inferred on this path. -/
def processEnd (writeKey : String) (buf : List String) (dfs : List (String × Table)) :
    Except String (List (String × Table)) :=
  if writeKey = "" then .ok dfs
  else
    match readCsv HeaderMode.infer buf with
    | .error e => .error e
    | .ok t => .ok (dictInsert writeKey t dfs)

/-- The line loop of `process_file`.  `writeKey = ""` models a falsy
`write_key` (Python's initial `None`, or the empty string produced by
stripping a line like `[]`): in that state lines are discarded and no
finalization happens.  On a line starting with `[` the current buffer is
finalized (when a key is set), the buffer reset, and the key replaced by
the stripped bracket text; any other line is appended to the buffer when a
key is set.  A pandas error propagates and aborts the file. -/
def processFileLoop : List String → String → List String → List (String × Table) →
    Except String (List (String × Table))
  | [], writeKey, buf, dfs => processEnd writeKey buf dfs
  | line :: rest, writeKey, buf, dfs =>
    if strStartsWith line "[" = true then
      if writeKey = "" then
        processFileLoop rest (stripBrackets line) [] dfs
      else
        match finalizeKey writeKey buf with
        | .error e => .error e
        | .ok t => processFileLoop rest (stripBrackets line) [] (dictInsert writeKey t dfs)
    else
      if writeKey = "" then
        processFileLoop rest writeKey buf dfs
      else
        processFileLoop rest writeKey (buf ++ [line]) dfs

/-- Models `ExtractAndProcessFiles.process_file` on the decompressed
file's lines: the mapping from section key to parsed Table that the method
persists (one `.tsv` written per entry), or the pandas error that aborted
it. -/
def process_file (lines : List String) : Except String (List (String × Table)) :=
  processFileLoop lines "" [] []

/-! ## ProbesTrimmer (`TrimProbesTable`) -/

/-- The fixed column list of `TrimProbesTable.run` (`columns_to_remove`). -/
def columns_to_remove : List String :=
  ["Definition", "Ontology_Component", "Ontology_Process", "Ontology_Function",
   "Synonyms", "Obsolete_Probe_Id", "Probe_Sequence"]

/-- One row of a table restricted to the columns whose name survives the
drop: `pandas.DataFrame.drop(columns=..., errors='ignore')` keeps every
row entry whose column label is not in the removal list. -/
def dropRow (h r : List String) : List String :=
  ((h.zip r).filter (fun p => !(columns_to_remove.contains p.1))).map Prod.snd

/-- Models `probes_df.drop(columns=columns_to_remove, errors='ignore')`:
columns whose label is in the list are removed, the rest keep their
original order; a table without a string header has no matching label, so
it is returned unchanged, and a label absent from the table is silently
ignored (the function is total — absence is not an error). -/
def Table.dropCols (t : Table) : Table :=
  match t.header with
  | none => t
  | some h =>
    Table.mk (some (h.filter (fun c => !(columns_to_remove.contains c))))
      (t.rows.map (dropRow h))

/-- Replace every occurrence of `pat` (non-empty) in the character list,
scanning left to right; `fuel` bounds the recursion and is instantiated
with the list's length, which suffices because every step consumes at
least one character. -/
def replaceFrom (pat repl : List Char) : Nat → List Char → List Char
  | 0, s => s
  | _ + 1, [] => []
  | fuel + 1, c :: rest =>
    if List.isPrefixOf pat (c :: rest) then
      repl ++ replaceFrom pat repl fuel (List.drop pat.length (c :: rest))
    else
      c :: replaceFrom pat repl fuel rest

/-- Models Python `s.replace(pat, repl)` for a non-empty `pat` (the only
use in `pipe.py` replaces `'_Probes.tsv'`). -/
def stringReplace (s pat repl : String) : String :=
  if pat.toList.isEmpty then s
  else String.mk (replaceFrom pat.toList repl.toList s.toList.length s.toList)

/-- The basename of the trimmed copy of a Probes file:
`os.path.basename(p).replace('_Probes.tsv', '_trimmed_Probes.tsv')` —
modelled on the discovered file's basename. -/
def trimmedName (p : String) : String :=
  stringReplace p "_Probes.tsv" "_trimmed_Probes.tsv"

/-- The fixed text written to the completion marker
`<output_dir>/Probes_trimmed.tsv`. -/
def markerPayload : String :=
  "Trimmed Probes processing completed.\n"

/-- One discovered `*_Probes.tsv` file together with the behaviour the
environment gives its two filesystem operations: the result of
`pd.read_csv` on it (a table, or an I/O / decode error) and whether
`to_csv` on the trimmed copy succeeds. -/
structure ProbesFile where
  path : String
  loadResult : Except String Table
  writeOk : Bool

/-- A discovered file processes without raising: its load succeeds and its
trimmed copy can be written. -/
def fileOk (f : ProbesFile) : Bool :=
  match f.loadResult with
  | .ok _ => f.writeOk
  | .error _ => false

/-- Outcome of `TrimProbesTable.run`: basenames of the trimmed copies that
were written, the marker content when the marker file was written, and the
exception that aborted the run, if any. -/
structure TrimOutcome where
  processed : List String
  marker : Option String
  err : Option String

/-- The per-file loop of `TrimProbesTable.run`.  There is no `try/except`
around `pd.read_csv` or `to_csv`: the first failure propagates out of the
loop. -/
def trimLoop : List ProbesFile → List String → List String × Option String
  | [], acc => (acc, none)
  | f :: rest, acc =>
    match f.loadResult with
    | .error e => (acc, some e)
    | .ok _ =>
      if f.writeOk then trimLoop rest (acc ++ [trimmedName f.path])
      else (acc, some ("IOError: could not write " ++ trimmedName f.path))

/-- The exception the per-file loop of `TrimProbesTable.run` raises, if
any: the load error of the first file that fails to load, or the write
error of the first file that loads but cannot be written. -/
def firstErr : List ProbesFile → Option String
  | [] => none
  | f :: rest =>
    match f.loadResult with
    | .error e => some e
    | .ok _ =>
      if f.writeOk then firstErr rest
      else some ("IOError: could not write " ++ trimmedName f.path)

/-- Models `TrimProbesTable.run` after discovery: with no discovered file
it raises `FileNotFoundError` naming the directory; otherwise it processes
the files in order and writes the completion marker only after the loop
finishes without raising. -/
def trimRun (processed_data_dir : String) (files : List ProbesFile) : TrimOutcome :=
  if files.isEmpty then
    TrimOutcome.mk [] none
      (some ("No Probes files found in the directory: " ++ processed_data_dir))
  else
    match trimLoop files [] with
    | (acc, none) => TrimOutcome.mk acc (some markerPayload) none
    | (acc, some e) => TrimOutcome.mk acc none (some e)

/-- The discovery walk of `TrimProbesTable.run`: every file under the
processed directory whose name ends in `_Probes.tsv`. -/
def discoverProbes (dirFiles : List ProbesFile) : List ProbesFile :=
  dirFiles.filter (fun f => hasSuffix f.path "_Probes.tsv")

/-- Models `TrimProbesTable.run` on the files found under
`processed_data_dir`. -/
def trimProbesRun (processed_data_dir : String) (dirFiles : List ProbesFile) : TrimOutcome :=
  trimRun processed_data_dir (discoverProbes dirFiles)

/-! ## ArchiveExtractor (`ExtractAndProcessFiles`) -/

/-- The filesystem as the pipeline sees it: which directories and which
files exist (contents are irrelevant to the claims). -/
structure FS where
  dirs : List String
  files : List String

/-- Models `os.makedirs(d, exist_ok=True)`. -/
def mkdirs (fs : FS) (d : String) : FS :=
  if fs.dirs.contains d then fs else FS.mk (fs.dirs ++ [d]) fs.files

/-- Record a file write (creating or overwriting `f`). -/
def addFile (fs : FS) (f : String) : FS :=
  if fs.files.contains f then fs else FS.mk fs.dirs (fs.files ++ [f])

/-- Models `os.path.basename`: the part after the last slash. -/
def basename (s : String) : String :=
  String.mk ((s.toList.reverse.takeWhile (fun c => !(c == '/'))).reverse)

/-- Drop the last dot-extension of a name, as `os.path.splitext(s)[0]`
does for the names appearing here (names whose last component does not
start with a dot). -/
def splitextBase (s : String) : String :=
  match (s.toList.reverse.dropWhile (fun c => !(c == '.'))) with
  | [] => s
  | _ :: after => String.mk after.reverse

/-- Parameters of `ExtractAndProcessFiles` with their luigi defaults
(`dataset_id='GSE68849'`, `download_dir='data'`,
`output_dir='processed_data'`). -/
structure ExtractParams where
  dataset_id : String
  download_dir : String
  output_dir : String

/-- The archive path `ExtractAndProcessFiles` reads: its requirement
`DownloadDataset`'s output `<download_dir>/<dataset_id>_RAW.tar`. -/
def tarPathOf (p : ExtractParams) : String :=
  joinPath p.download_dir (p.dataset_id ++ "_RAW.tar")

/-- One member of the tar archive: its name, whether it is a regular file,
and the outcome of extracting and gunzipping it (the decompressed lines,
or a decode error). -/
structure Member where
  name : String
  isFile : Bool
  decode : Except String (List String)

/-- The member loop of `ExtractAndProcessFiles.run`: for every regular
member named `*.txt.gz`, create the member directory, write the
decompressed file, and run `process_file` on it, which writes one `.tsv`
per section; a gzip or pandas error aborts the whole stage. -/
def extractLoop (output_dir : String) : List Member → FS → FS × Except String Unit
  | [], fs => (fs, .ok ())
  | m :: rest, fs =>
    if m.isFile && hasSuffix m.name ".txt.gz" then
      let memberName := splitextBase m.name
      let extractionDir := joinPath output_dir memberName
      let fs1 := mkdirs fs extractionDir
      match m.decode with
      | .error e => (fs1, .error e)
      | .ok contentLines =>
        let outPath := joinPath extractionDir memberName
        let fs2 := addFile fs1 outPath
        match process_file contentLines with
        | .error e => (fs2, .error e)
        | .ok dfs =>
          let fs3 := dfs.foldl
            (fun acc kv =>
              addFile acc
                (joinPath extractionDir (splitextBase (basename outPath) ++ "_" ++ kv.1 ++ ".tsv")))
            fs2
          extractLoop output_dir rest fs3
    else extractLoop output_dir rest fs

/-- Models `ExtractAndProcessFiles.run`: first `os.makedirs(output_dir,
exist_ok=True)`, then the `os.path.isfile` check on the archive path —
raising `FileNotFoundError` when it is absent — and only then the member
loop. -/
def extractRun (p : ExtractParams) (members : List Member) (fs : FS) :
    FS × Except String Unit :=
  let fs1 := mkdirs fs p.output_dir
  if fs1.files.contains (tarPathOf p) then
    extractLoop p.output_dir members fs1
  else
    (fs1, .error ("TAR file does not exist: " ++ tarPathOf p))

/-- Models `luigi.LocalTarget(path).exists()`: `os.path.exists`, true for
a directory as well as for a file. -/
def localTargetExists (fs : FS) (path : String) : Bool :=
  fs.dirs.contains path || fs.files.contains path

/-- Models luigi's completeness check for `ExtractAndProcessFiles`, whose
`output()` is `LocalTarget(self.output_dir)`: the stage is considered
complete — and is skipped by the orchestrator — iff that path exists. -/
def extractComplete (p : ExtractParams) (fs : FS) : Bool :=
  localTargetExists fs p.output_dir

/-! ## OriginalDataCleaner (`DeleteOriginalData`) -/

/-- Input state of `DeleteOriginalData.run`: the files and directories the
walk of `processed_data_dir` finds, and which deletion calls the
environment makes raise (`os.remove` on a file, `os.rmdir` on a
directory, `os.rmdir` on the root processed directory). -/
structure CleanEnv where
  processed_data_dir : String
  files : List String
  dirs : List String
  removeFails : List String
  rmdirFails : List String
  rootRmdirFails : Bool

/-- Outcome of `DeleteOriginalData.run`: what was deleted, whether the
root directory was removed, every file the run wrote, and whether the run
reached its end without raising. -/
structure CleanOutcome where
  deletedFiles : List String
  deletedDirs : List String
  rootDeleted : Bool
  writtenFiles : List String
  completed : Bool

/-- Models `DeleteOriginalData.run`.  When the walk finds nothing the
method returns early (a logged no-op).  Otherwise every found file is
`os.remove`d inside `try/except Exception` and every found directory is
`os.rmdir`ed inside `try/except OSError`, then the root directory itself,
also guarded — so no deletion failure escalates.  No branch writes any
file: in particular the declared output `delete_original_data.done` is
never created. -/
def deleteOriginalDataRun (env : CleanEnv) : CleanOutcome :=
  if (env.dirs ++ env.files).isEmpty then
    CleanOutcome.mk [] [] false [] true
  else
    CleanOutcome.mk
      (env.files.filter (fun f => !(env.removeFails.contains f)))
      (env.dirs.filter (fun d => !(env.rmdirFails.contains d)))
      (!env.rootRmdirFails)
      []
      true

/-! ## Task wiring (`requires`) -/

/-- Parameters of `TrimProbesTable` with luigi defaults
(`'GSE68849'`, `'data'`, `'processed_data'`, `'trimmed_probes'`). -/
structure TrimProbesTableTask where
  dataset_id : String
  download_dir : String
  processed_data_dir : String
  output_dir : String

/-- Parameters of `DeleteOriginalData` (same four parameters and defaults
as `TrimProbesTable`). -/
structure DeleteOriginalDataTask where
  dataset_id : String
  download_dir : String
  processed_data_dir : String
  output_dir : String

/-- Models `TrimProbesTable.requires`:
`ExtractAndProcessFiles(self.dataset_id)` — only the dataset id is passed,
so `download_dir` and `output_dir` take their declared defaults. -/
def trimProbesRequires (t : TrimProbesTableTask) : ExtractParams :=
  ExtractParams.mk t.dataset_id "data" "processed_data"

/-- Models `DeleteOriginalData.requires`:
`TrimProbesTable(self.dataset_id)` — only the dataset id is passed, so the
three directory parameters take their declared defaults. -/
def deleteOriginalDataRequires (t : DeleteOriginalDataTask) : TrimProbesTableTask :=
  TrimProbesTableTask.mk t.dataset_id "data" "processed_data" "trimmed_probes"

/-! ## Helper lemmas about the section parser -/

/-- A buffer containing a non-empty line survives the blank-line filter. -/
theorem filter_isDataLine_ne_nil {buf : List String} {w : String}
    (hw : w ∈ buf) (hne : w ≠ "") : buf.filter isDataLine ≠ [] :=
  List.ne_nil_of_mem (List.mem_filter.mpr ⟨hw, by simp [isDataLine, hne]⟩)

/-- `read_csv` with an inferred header succeeds on a buffer with content
and returns a table that has a header row. -/
theorem readCsv_infer_ok (buf : List String) (h : buf.filter isDataLine ≠ []) :
    ∃ t : Table, readCsv HeaderMode.infer buf = .ok t ∧ t.header.isSome = true := by
  rcases hfe : buf.filter isDataLine with _ | ⟨first, rest⟩
  · exact absurd hfe h
  · refine ⟨Table.mk (some (splitTabs first)) (rest.map splitTabs), ?_, rfl⟩
    unfold readCsv
    rw [hfe]

/-- `read_csv` with `header=None` succeeds on a buffer with content and
returns a table with no header row. -/
theorem readCsv_noHeader_ok (buf : List String) (h : buf.filter isDataLine ≠ []) :
    ∃ t : Table, readCsv HeaderMode.noHeader buf = .ok t ∧ t.header = none := by
  rcases hfe : buf.filter isDataLine with _ | ⟨first, rest⟩
  · exact absurd hfe h
  · refine ⟨Table.mk none ((first :: rest).map splitTabs), ?_, rfl⟩
    unfold readCsv
    rw [hfe]

/-- `read_csv` on an empty buffer raises, whatever the header mode. -/
theorem readCsv_nil (mode : HeaderMode) :
    readCsv mode [] = .error "EmptyDataError: No columns to parse from file" := rfl

/-- Mid-file finalization of a `Heading` section parses with no header. -/
theorem finalizeKey_heading (buf : List String) (h : buf.filter isDataLine ≠ []) :
    ∃ t : Table, finalizeKey "Heading" buf = .ok t ∧ t.header = none := by
  simpa [finalizeKey] using readCsv_noHeader_ok buf h

/-- Mid-file finalization succeeds on any buffer with content. -/
theorem finalizeKey_ok (k : String) (buf : List String) (h : buf.filter isDataLine ≠ []) :
    ∃ t : Table, finalizeKey k buf = .ok t := by
  unfold finalizeKey
  rcases hm : (if k = "Heading" then HeaderMode.noHeader else HeaderMode.infer) with _ | _
  · obtain ⟨t, ht, -⟩ := readCsv_noHeader_ok buf h
    exact ⟨t, ht⟩
  · obtain ⟨t, ht, -⟩ := readCsv_infer_ok buf h
    exact ⟨t, ht⟩

/-- Mid-file finalization of an empty buffer raises `EmptyDataError`. -/
theorem finalizeKey_nil (k : String) :
    finalizeKey k [] = .error "EmptyDataError: No columns to parse from file" := rfl

/-- Stepping the loop over a bracket line with no key set: the buffer is
reset and the stripped text becomes the current key. -/
theorem processFileLoop_newKey (line : String) (rest buf : List String)
    (dfs : List (String × Table)) (hline : strStartsWith line "[" = true) :
    processFileLoop (line :: rest) "" buf dfs
      = processFileLoop rest (stripBrackets line) [] dfs := by
  simp only [processFileLoop]
  rw [if_pos hline]
  simp

/-- Stepping the loop over a bracket line with a key set, when the
buffer's finalization succeeds. -/
theorem processFileLoop_bracket (line : String) (rest buf : List String) (k : String)
    (dfs : List (String × Table)) (t : Table)
    (hline : strStartsWith line "[" = true) (hk : ¬ k = "")
    (hfin : finalizeKey k buf = .ok t) :
    processFileLoop (line :: rest) k buf dfs
      = processFileLoop rest (stripBrackets line) [] (dictInsert k t dfs) := by
  simp only [processFileLoop, if_pos hline, if_neg hk, hfin]

/-- Stepping the loop over a bracket line with a key set, when the
buffer's finalization raises: the error aborts the whole file. -/
theorem processFileLoop_bracket_error (line : String) (rest buf : List String) (k : String)
    (dfs : List (String × Table)) (e : String)
    (hline : strStartsWith line "[" = true) (hk : ¬ k = "")
    (hfin : finalizeKey k buf = .error e) :
    processFileLoop (line :: rest) k buf dfs = .error e := by
  simp only [processFileLoop, if_pos hline, if_neg hk, hfin]

/-- Stepping the loop over a data line with a key set appends the line to
the buffer. -/
theorem processFileLoop_dataLine (line : String) (rest buf : List String) (k : String)
    (dfs : List (String × Table))
    (hline : strStartsWith line "[" = false) (hk : ¬ k = "") :
    processFileLoop (line :: rest) k buf dfs
      = processFileLoop rest k (buf ++ [line]) dfs := by
  simp only [processFileLoop, hline, Bool.false_eq_true, if_false, if_neg hk]

/-- A run of data lines is accumulated verbatim onto the buffer. -/
theorem processFileLoop_body (body : List String) :
    ∀ (rest : List String) (k : String) (buf : List String) (dfs : List (String × Table)),
      ¬ k = "" → (∀ l ∈ body, strStartsWith l "[" = false) →
      processFileLoop (body ++ rest) k buf dfs = processFileLoop rest k (buf ++ body) dfs := by
  induction body with
  | nil => intro rest k buf dfs _ _; simp
  | cons l body ih =>
    intro rest k buf dfs hk hb
    have hl : strStartsWith l "[" = false := hb l (by simp)
    have hb2 : ∀ x ∈ body, strStartsWith x "[" = false := fun x hx => hb x (by simp [hx])
    rw [List.cons_append, processFileLoop_dataLine l (body ++ rest) buf k dfs hl hk,
      ih rest k (buf ++ [l]) dfs hk hb2]
    simp

/-- End-of-input finalization with a key set, success case. -/
theorem processEnd_ok (k : String) (buf : List String) (dfs : List (String × Table))
    (t : Table) (hk : ¬ k = "") (h : readCsv HeaderMode.infer buf = .ok t) :
    processEnd k buf dfs = .ok (dictInsert k t dfs) := by
  simp only [processEnd, if_neg hk, h]

/-- End-of-input finalization with a key set, error case. -/
theorem processEnd_error (k : String) (buf : List String) (dfs : List (String × Table))
    (e : String) (hk : ¬ k = "") (h : readCsv HeaderMode.infer buf = .error e) :
    processEnd k buf dfs = .error e := by
  simp only [processEnd, if_neg hk, h]

/-! ## Claim theorems about the section parser -/

/-- Claim C3: in `process_file`, a `Heading` section finalized mid-file
(a later bracket line is seen) is parsed with no header row, while the
last section of a file, finalized at end of input, is parsed with an
inferred header row even when its key is `Heading`.  `body` is the
section's payload (no bracket lines, at least one non-empty line `w`). -/
theorem heading_header_asymmetry (body : List String) (w : String)
    (hb : ∀ l ∈ body, strStartsWith l "[" = false) (hw : w ∈ body) (hwne : w ≠ "") :
    (∃ tMid : Table,
      process_file ("[Heading]" :: body ++ ["[Tail]", "c"])
        = .ok [("Heading", tMid), ("Tail", Table.mk (some (splitTabs "c")) [])]
      ∧ tMid.header = none)
    ∧ (∃ tLast : Table,
      process_file ("[Heading]" :: body) = .ok [("Heading", tLast)]
      ∧ tLast.header.isSome = true) := by
  have hfil : body.filter isDataLine ≠ [] := filter_isDataLine_ne_nil hw hwne
  have hkey : ¬ ("Heading" : String) = "" := by decide
  constructor
  · obtain ⟨tMid, hMid, hMidNone⟩ := finalizeKey_heading body hfil
    refine ⟨tMid, ?_, hMidNone⟩
    have step1 : process_file ("[Heading]" :: body ++ ["[Tail]", "c"])
        = processFileLoop (body ++ ["[Tail]", "c"]) "Heading" [] [] := by
      have := processFileLoop_newKey "[Heading]" (body ++ ["[Tail]", "c"]) [] [] rfl
      simpa [process_file] using this
    rw [step1, processFileLoop_body body ["[Tail]", "c"] "Heading" [] [] hkey hb]
    rw [List.nil_append,
      processFileLoop_bracket "[Tail]" ["c"] body "Heading" [] tMid rfl hkey hMid]
    have step2 : processFileLoop ["c"] (stripBrackets "[Tail]") []
        (dictInsert "Heading" tMid []) = processEnd "Tail" ["c"] [("Heading", tMid)] := by
      show processFileLoop ["c"] "Tail" [] [("Heading", tMid)]
        = processEnd "Tail" ["c"] [("Heading", tMid)]
      rw [processFileLoop_dataLine "c" [] [] "Tail" [("Heading", tMid)] rfl (by decide)]
      rfl
    rw [step2, processEnd_ok "Tail" ["c"] [("Heading", tMid)]
      (Table.mk (some (splitTabs "c")) []) (by decide) rfl]
    rfl
  · obtain ⟨tLast, hLast, hLastSome⟩ := readCsv_infer_ok body hfil
    refine ⟨tLast, ?_, hLastSome⟩
    have step1 : process_file ("[Heading]" :: body)
        = processFileLoop body "Heading" [] [] := by
      have := processFileLoop_newKey "[Heading]" body [] [] rfl
      simpa [process_file] using this
    have hbody := processFileLoop_body body [] "Heading" [] [] hkey hb
    rw [List.append_nil, List.nil_append] at hbody
    rw [step1, hbody]
    show processEnd "Heading" body [] = _
    rw [processEnd_ok "Heading" body [] tLast hkey hLast]
    rfl

/-- Claim C3 witness: the asymmetry at the concrete one-line body
`a<TAB>b`. -/
theorem heading_header_asymmetry_witness :
    (∃ tMid : Table,
      process_file ("[Heading]" :: ["a\tb"] ++ ["[Tail]", "c"])
        = .ok [("Heading", tMid), ("Tail", Table.mk (some (splitTabs "c")) [])]
      ∧ tMid.header = none)
    ∧ (∃ tLast : Table,
      process_file ("[Heading]" :: ["a\tb"]) = .ok [("Heading", tLast)]
      ∧ tLast.header.isSome = true) :=
  heading_header_asymmetry ["a\tb"] "a\tb" (by decide) (by decide) (by decide)

/-- Claim C4 counterexample: a section with zero data rows does raise.  In
`[A]` / `[B]` / `x<TAB>y`, section `A` is finalized with an empty buffer
and `pd.read_csv` raises `EmptyDataError`, aborting the whole file —
refuting "the parse of an empty or header-only section buffer never raises
an error". -/
theorem empty_section_counterexample :
    process_file ["[A]", "[B]", "x\ty"]
      = .error "EmptyDataError: No columns to parse from file" := rfl

/-- Claim C4 (amended): an empty file produces zero Tables without
failure, and a section with a header row and zero data rows parses to an
empty Table with header only; but a section whose buffer is empty — a
bracket line followed immediately by another bracket line or by end of
input — raises `EmptyDataError`, aborting the file's processing. -/
theorem empty_and_header_only_sections (l hdr : String)
    (hl : strStartsWith l "[" = true) (hk : ¬ stripBrackets l = "")
    (hhdr1 : strStartsWith hdr "[" = false) (hhdr2 : hdr ≠ "") :
    process_file [] = .ok []
    ∧ process_file [l, hdr] = .ok [(stripBrackets l, Table.mk (some (splitTabs hdr)) [])]
    ∧ process_file [l, l] = .error "EmptyDataError: No columns to parse from file"
    ∧ process_file [l] = .error "EmptyDataError: No columns to parse from file" := by
  have hfil : [hdr].filter isDataLine = [hdr] := by simp [isDataLine, hhdr2]
  have hcsv : readCsv HeaderMode.infer [hdr] = .ok (Table.mk (some (splitTabs hdr)) []) := by
    unfold readCsv
    rw [hfil]
    rfl
  refine ⟨rfl, ?_, ?_, ?_⟩
  · show processFileLoop [l, hdr] "" [] [] = _
    rw [processFileLoop_newKey l [hdr] [] [] hl,
      processFileLoop_dataLine hdr [] [] (stripBrackets l) [] hhdr1 hk]
    show processEnd (stripBrackets l) ([] ++ [hdr]) [] = _
    rw [List.nil_append, processEnd_ok (stripBrackets l) [hdr] []
      (Table.mk (some (splitTabs hdr)) []) hk hcsv]
    rfl
  · show processFileLoop [l, l] "" [] [] = _
    rw [processFileLoop_newKey l [l] [] [] hl]
    exact processFileLoop_bracket_error l [] [] (stripBrackets l) []
      "EmptyDataError: No columns to parse from file" hl hk (finalizeKey_nil _)
  · show processFileLoop [l] "" [] [] = _
    rw [processFileLoop_newKey l [] [] [] hl]
    exact processEnd_error (stripBrackets l) [] []
      "EmptyDataError: No columns to parse from file" hk (readCsv_nil _)

/-- Claim C4 witness: the amended behaviour at the concrete key line `[A]`
and header line `c1<TAB>c2`. -/
theorem empty_and_header_only_sections_witness :
    process_file [] = .ok []
    ∧ process_file ["[A]", "c1\tc2"]
        = .ok [(stripBrackets "[A]", Table.mk (some (splitTabs "c1\tc2")) [])]
    ∧ process_file ["[A]", "[A]"] = .error "EmptyDataError: No columns to parse from file"
    ∧ process_file ["[A]"] = .error "EmptyDataError: No columns to parse from file" :=
  empty_and_header_only_sections "[A]" "c1\tc2" (by decide) (by decide) (by decide) (by decide)

/-- Claim C9: when two sections of one file carry the same bracketed key,
the data accumulated for that key is the later occurrence's parse: the
first occurrence's Table (which parsed successfully, as exhibited) is
overwritten, because `dfs` is keyed by section name. -/
theorem duplicate_key_last_wins (l : String) (body1 body2 : List String) (w1 w2 : String)
    (hl : strStartsWith l "[" = true) (hk : ¬ stripBrackets l = "")
    (h1 : ∀ x ∈ body1, strStartsWith x "[" = false) (hw1 : w1 ∈ body1) (hw1ne : w1 ≠ "")
    (h2 : ∀ x ∈ body2, strStartsWith x "[" = false) (hw2 : w2 ∈ body2) (hw2ne : w2 ≠ "") :
    ∃ t1 t2 : Table,
      finalizeKey (stripBrackets l) body1 = .ok t1
      ∧ readCsv HeaderMode.infer body2 = .ok t2
      ∧ process_file (l :: body1 ++ l :: body2) = .ok [(stripBrackets l, t2)] := by
  have hfil1 : body1.filter isDataLine ≠ [] := filter_isDataLine_ne_nil hw1 hw1ne
  have hfil2 : body2.filter isDataLine ≠ [] := filter_isDataLine_ne_nil hw2 hw2ne
  obtain ⟨t1, ht1⟩ := finalizeKey_ok (stripBrackets l) body1 hfil1
  obtain ⟨t2, ht2, -⟩ := readCsv_infer_ok body2 hfil2
  refine ⟨t1, t2, ht1, ht2, ?_⟩
  show processFileLoop (l :: body1 ++ l :: body2) "" [] [] = _
  rw [List.cons_append, processFileLoop_newKey l (body1 ++ l :: body2) [] [] hl,
    processFileLoop_body body1 (l :: body2) (stripBrackets l) [] [] hk h1,
    List.nil_append,
    processFileLoop_bracket l body2 body1 (stripBrackets l) [] t1 hl hk ht1]
  have hbody := processFileLoop_body body2 [] (stripBrackets l) []
    (dictInsert (stripBrackets l) t1 []) hk h2
  rw [List.append_nil, List.nil_append] at hbody
  rw [hbody]
  show processEnd (stripBrackets l) body2 (dictInsert (stripBrackets l) t1 []) = _
  rw [processEnd_ok (stripBrackets l) body2 (dictInsert (stripBrackets l) t1 []) t2 hk ht2]
  simp [dictInsert]

/-- Claim C9 witness: the duplicate key `[Probes]` at concrete one-line
bodies `a` and `b`. -/
theorem duplicate_key_last_wins_witness :
    ∃ t1 t2 : Table,
      finalizeKey (stripBrackets "[Probes]") ["a"] = .ok t1
      ∧ readCsv HeaderMode.infer ["b"] = .ok t2
      ∧ process_file ("[Probes]" :: ["a"] ++ "[Probes]" :: ["b"])
          = .ok [(stripBrackets "[Probes]", t2)] :=
  duplicate_key_last_wins "[Probes]" ["a"] ["b"] "a" "b"
    (by decide) (by decide) (by decide) (by decide) (by decide)
    (by decide) (by decide) (by decide)

/-! ## Helper lemmas about the trim stage -/

/-- The per-file loop processes exactly the longest prefix of files that
load and write successfully, and raises the first failure. -/
theorem trimLoop_eq (files : List ProbesFile) :
    ∀ acc : List String,
      trimLoop files acc
        = (acc ++ (files.takeWhile fileOk).map (fun g => trimmedName g.path), firstErr files) := by
  induction files with
  | nil => intro acc; simp [trimLoop, firstErr]
  | cons f rest ih =>
    intro acc
    rcases hres : f.loadResult with e | t
    · have hok : fileOk f = false := by simp [fileOk, hres]
      simp [trimLoop, firstErr, hres, List.takeWhile_cons, hok]
    · rcases hw : f.writeOk with _ | _
      · have hok : fileOk f = false := by simp [fileOk, hres, hw]
        simp [trimLoop, firstErr, hres, hw, List.takeWhile_cons, hok]
      · have hok : fileOk f = true := by simp [fileOk, hres, hw]
        simp [trimLoop, firstErr, hres, hw, List.takeWhile_cons, hok, ih, List.append_assoc]

/-- The loop raises no exception exactly when every file loads and writes
successfully. -/
theorem firstErr_none_iff (files : List ProbesFile) :
    firstErr files = none ↔ ∀ g ∈ files, fileOk g = true := by
  induction files with
  | nil => simp [firstErr]
  | cons f rest ih =>
    rcases hres : f.loadResult with e | t
    · have hok : fileOk f = false := by simp [fileOk, hres]
      simp [firstErr, hres, hok]
    · rcases hw : f.writeOk with _ | _
      · have hok : fileOk f = false := by simp [fileOk, hres, hw]
        simp [firstErr, hres, hw, hok]
      · have hok : fileOk f = true := by simp [fileOk, hres, hw]
        simp [firstErr, hres, hw, hok, ih]

/-! ## Claim theorems about the trim stage -/

/-- Claim C1 counterexample: two discovered `_Probes.tsv` files; loading
the first raises a decode error.  The run processes nothing further — the
second file, which would load fine, gets no trimmed copy — and the
completion marker is not written, refuting both the per-file independence
and the unconditional marker write. -/
theorem trim_failure_not_isolated_counterexample :
    trimProbesRun "processed_data"
      [ProbesFile.mk "a_Probes.tsv" (.error "DecodeFailure") true,
       ProbesFile.mk "b_Probes.tsv" (.ok (Table.mk (some ["ID_REF"]) [])) true]
      = TrimOutcome.mk [] none (some "DecodeFailure") := rfl

/-- Claim C1 (amended): the discovered files are processed in order only
up to the first I/O or decode failure — a failure while loading or
writing one file aborts the processing of the remaining files — and the
CompletionMarker, with its fixed textual payload, is written exactly when
at least one file was discovered and every discovered file loaded and
wrote successfully. -/
theorem trim_per_file_abort (d : String) (files : List ProbesFile) :
    (trimRun d files).processed = (files.takeWhile fileOk).map (fun g => trimmedName g.path)
    ∧ (trimRun d files).marker =
        (if files.isEmpty = false ∧ (∀ g ∈ files, fileOk g = true)
         then some markerPayload else none) := by
  cases files with
  | nil => simp [trimRun]
  | cons f rest =>
    have hne : (f :: rest).isEmpty = false := List.isEmpty_cons
    have hloop := trimLoop_eq (f :: rest) []
    rcases he : firstErr (f :: rest) with _ | e
    · rw [he] at hloop
      have hall : ∀ g ∈ (f :: rest), fileOk g = true := (firstErr_none_iff _).mp he
      constructor
      · simp [trimRun, hloop]
      · have hm : (trimRun d (f :: rest)).marker = some markerPayload := by
          simp [trimRun, hloop]
        rw [hm, if_pos ⟨hne, hall⟩]
    · rw [he] at hloop
      constructor
      · simp [trimRun, hloop]
      · have hm : (trimRun d (f :: rest)).marker = none := by
          simp [trimRun, hloop]
        rw [hm, if_neg]
        rintro ⟨-, hall⟩
        have := (firstErr_none_iff (f :: rest)).mpr hall
        rw [he] at this
        exact Option.some_ne_none e this

/-- Claim C7: when the recursive search of the processed directory finds
zero files ending `_Probes.tsv`, `TrimProbesTable.run` raises the
`FileNotFoundError` naming the directory and does not write its
completion marker. -/
theorem no_probes_files_fatal (d : String) (dirFiles : List ProbesFile)
    (h : ∀ f ∈ dirFiles, hasSuffix f.path "_Probes.tsv" = false) :
    (trimProbesRun d dirFiles).marker = none
    ∧ (trimProbesRun d dirFiles).err
        = some ("No Probes files found in the directory: " ++ d) := by
  have hd : discoverProbes dirFiles = [] := by
    rw [discoverProbes, List.filter_eq_nil_iff]
    intro f hf
    simp [h f hf]
  rw [trimProbesRun, hd]
  exact ⟨rfl, rfl⟩

/-- Claim C7 witness: a processed directory holding one non-Probes file. -/
theorem no_probes_files_fatal_witness :
    (trimProbesRun "processed_data"
        [ProbesFile.mk "GSM_notes.txt" (.ok (Table.mk none [])) true]).marker = none
    ∧ (trimProbesRun "processed_data"
        [ProbesFile.mk "GSM_notes.txt" (.ok (Table.mk none [])) true]).err
        = some ("No Probes files found in the directory: " ++ "processed_data") :=
  no_probes_files_fatal "processed_data"
    [ProbesFile.mk "GSM_notes.txt" (.ok (Table.mk none [])) true] (by decide)

/-- Claim C8: dropping the fixed column set from a loaded Probes table
removes every one of the seven named columns that is present, keeps every
other column, and preserves the original order (the trimmed header is a
sublist of the original); the drop is total — a named column's absence is
not an error, `errors='ignore'` — over all headers and row data. -/
theorem probes_columns_trimmed (hdr : List String) (rows : List (List String)) :
    ∃ h2 : List String,
      (Table.dropCols (Table.mk (some hdr) rows)).header = some h2
      ∧ (∀ c ∈ columns_to_remove, c ∉ h2)
      ∧ List.Sublist h2 hdr
      ∧ (∀ c ∈ hdr, c ∉ columns_to_remove → c ∈ h2) := by
  refine ⟨hdr.filter (fun c => !(columns_to_remove.contains c)), rfl, ?_, List.filter_sublist _, ?_⟩
  · intro c hc hmem
    have h2 := (List.mem_filter.mp hmem).2
    simp at h2
    exact h2 hc
  · intro c hc hnc
    refine List.mem_filter.mpr ⟨hc, ?_⟩
    simp [hnc]

/-! ## Helper lemmas about the extractor stage -/

/-- `os.makedirs` never touches files. -/
theorem mkdirs_files (fs : FS) (d : String) : (mkdirs fs d).files = fs.files := by
  rw [mkdirs]
  split <;> rfl

/-- After `os.makedirs(d, exist_ok=True)` the directory `d` exists. -/
theorem mkdirs_contains (fs : FS) (d : String) : (mkdirs fs d).dirs.contains d = true := by
  rw [mkdirs]
  split
  · next hc => exact hc
  · simp

/-- Characterization of `ExtractAndProcessFiles.run` when the archive path
does not exist: the output directory has been created and the run raises
the `FileNotFoundError`, touching nothing else. -/
theorem extractRun_missing (p : ExtractParams) (members : List Member) (fs : FS)
    (h : fs.files.contains (tarPathOf p) = false) :
    extractRun p members fs
      = (mkdirs fs p.output_dir, .error ("TAR file does not exist: " ++ tarPathOf p)) := by
  have hc : (mkdirs fs p.output_dir).files.contains (tarPathOf p) = false := by
    rw [mkdirs_files]
    exact h
  simp only [extractRun]
  rw [if_neg]
  rw [hc]
  exact Bool.false_ne_true

/-! ## Claim theorems about the extractor stage -/

/-- Claim C5: when the archive path does not exist,
`ExtractAndProcessFiles.run` fails with the missing-input
`FileNotFoundError` naming the path, before any extraction attempt, and
writes no files (the set of existing files is unchanged; only the output
directory is created). -/
theorem missing_archive_aborts (p : ExtractParams) (members : List Member) (fs : FS)
    (h : fs.files.contains (tarPathOf p) = false) :
    (extractRun p members fs).2 = .error ("TAR file does not exist: " ++ tarPathOf p)
    ∧ (extractRun p members fs).1.files = fs.files := by
  rw [extractRun_missing p members fs h]
  exact ⟨rfl, mkdirs_files fs p.output_dir⟩

/-- Claim C5 witness: the default parameters against an empty
filesystem. -/
theorem missing_archive_aborts_witness :
    (extractRun (ExtractParams.mk "GSE68849" "data" "processed_data") [] (FS.mk [] [])).2
      = .error ("TAR file does not exist: "
          ++ tarPathOf (ExtractParams.mk "GSE68849" "data" "processed_data"))
    ∧ (extractRun (ExtractParams.mk "GSE68849" "data" "processed_data") [] (FS.mk [] [])).1.files
      = (FS.mk [] []).files :=
  missing_archive_aborts (ExtractParams.mk "GSE68849" "data" "processed_data") [] (FS.mk [] []) rfl

/-- Claim C6: `ExtractAndProcessFiles.run` creates its output directory
before checking that the archive exists, so a run that fails on a missing
archive still leaves the declared Output Target (the output directory) in
place — and luigi's completeness check on a later orchestration run finds
the target existing and treats the failed stage as complete, skipping
it. -/
theorem missing_archive_output_dir_created (p : ExtractParams) (members : List Member)
    (fs : FS) (h : fs.files.contains (tarPathOf p) = false) :
    (∃ e : String, (extractRun p members fs).2 = .error e)
    ∧ (extractRun p members fs).1.dirs.contains p.output_dir = true
    ∧ extractComplete p (extractRun p members fs).1 = true := by
  rw [extractRun_missing p members fs h]
  refine ⟨⟨_, rfl⟩, mkdirs_contains fs p.output_dir, ?_⟩
  rw [extractComplete, localTargetExists, mkdirs_contains fs p.output_dir]
  rfl

/-- Claim C6 witness: the default parameters against an empty filesystem;
afterwards the stage's completeness check succeeds. -/
theorem missing_archive_output_dir_created_witness :
    (∃ e : String,
      (extractRun (ExtractParams.mk "GSE68849" "data" "processed_data") [] (FS.mk [] [])).2
        = .error e)
    ∧ (extractRun (ExtractParams.mk "GSE68849" "data" "processed_data") []
        (FS.mk [] [])).1.dirs.contains "processed_data" = true
    ∧ extractComplete (ExtractParams.mk "GSE68849" "data" "processed_data")
        (extractRun (ExtractParams.mk "GSE68849" "data" "processed_data") []
          (FS.mk [] [])).1 = true :=
  missing_archive_output_dir_created
    (ExtractParams.mk "GSE68849" "data" "processed_data") [] (FS.mk [] []) rfl

/-! ## Claim theorems about the cleanup stage and the task wiring -/

/-- Claim C2: `DeleteOriginalData.run` always reaches its end — every
deletion failure is caught and logged, never escalated — but it writes no
file at all on any input: in particular the CompletionMarker
`delete_original_data.done` declared as its Output Target is never
created, so the declared output does not exist upon completion. -/
theorem cleanup_completes_but_never_writes_marker (env : CleanEnv) :
    (deleteOriginalDataRun env).completed = true
    ∧ (deleteOriginalDataRun env).writtenFiles = []
    ∧ joinPath env.processed_data_dir "delete_original_data.done"
        ∉ (deleteOriginalDataRun env).writtenFiles := by
  rw [deleteOriginalDataRun]
  split <;> exact ⟨rfl, rfl, by simp⟩

/-- Claim C10: `TrimProbesTable.requires` and
`DeleteOriginalData.requires` construct their upstream task passing only
the dataset identifier, so — whatever directories the downstream task was
configured with — the upstream task always carries the default download,
processed and trimmed directories. -/
theorem requires_ignores_directory_params (t1 : TrimProbesTableTask)
    (t2 : DeleteOriginalDataTask) :
    (trimProbesRequires t1).dataset_id = t1.dataset_id
    ∧ (trimProbesRequires t1).download_dir = "data"
    ∧ (trimProbesRequires t1).output_dir = "processed_data"
    ∧ (deleteOriginalDataRequires t2).dataset_id = t2.dataset_id
    ∧ (deleteOriginalDataRequires t2).download_dir = "data"
    ∧ (deleteOriginalDataRequires t2).processed_data_dir = "processed_data"
    ∧ (deleteOriginalDataRequires t2).output_dir = "trimmed_probes" :=
  ⟨rfl, rfl, rfl, rfl, rfl, rfl, rfl⟩

end Pipe
